import Mathlib

/-!
# Verification of the Odoo Manager deployment orchestration core

A shallow embedding of the core modules of the Odoo Manager repository
(`odoo_manager/core/monitor.py`, `scheduler.py`, `environment.py`,
`cicd.py`) together with theorems settling the stated properties of the
deployment pipeline, environment promotion, health monitoring, the
auto-restart rate limiter and the task scheduler.

Modelling conventions:
* Python dataclasses become structures; enums become inductives.
* Wall-clock timestamps are modelled as integers (seconds); float
  percentages become exact rationals.
* Collaborator calls (git, docker, the database probe, the filesystem)
  are modelled as explicit inputs: a structure field per probe, with
  `Option`/`Except` encoding a raised exception.
* Methods that mutate `self` become functions returning the new state.
-/

namespace OdooManager

/-! ## Status enumerations (core/cicd.py, core/monitor.py) -/

/-- Model of `ValidationStatus` enum from core/cicd.py. -/
inductive ValidationStatus where
  | pending
  | running
  | passed
  | failed
  | skipped
  deriving DecidableEq, Repr

/-- Model of `HealthStatus` enum from core/monitor.py. -/
inductive HealthStatus where
  | healthy
  | warning
  | critical
  | unknown
  deriving DecidableEq, Repr

/-! ## AutoRestart (core/monitor.py, class AutoRestart)

`restart_history` maps an instance name to a list of restart timestamps;
the operations below act on one instance's list (a missing dictionary key
behaves as the empty list, exactly as the Python code inserts `[]` on
first touch). Timestamps are integer seconds. -/

/-- The pruning comprehension shared by `should_restart` and
`get_restart_count`: keep timestamps strictly younger than the window. -/
def pruneRestarts (restartWindow : Int) (now : Int) (hist : List Int) : List Int :=
  hist.filter (fun t => now - t < restartWindow)

/-- Model of `AutoRestart.should_restart`: prunes the stored list in place (the
second component is the new stored list) and allows a restart while the
in-window count is strictly below `max_restarts`. -/
def shouldRestart (maxRestarts : Nat) (restartWindow : Int) (now : Int)
    (hist : List Int) : Bool × List Int :=
  let pruned := pruneRestarts restartWindow now hist
  (pruned.length < maxRestarts, pruned)

/-- Model of `AutoRestart.record_restart`: appends the current time. -/
def recordRestart (now : Int) (hist : List Int) : List Int :=
  hist ++ [now]

/-- Model of `AutoRestart.get_restart_count`: counts in-window restarts without
mutating the stored list. -/
def getRestartCount (restartWindow : Int) (now : Int) (hist : List Int) : Nat :=
  (pruneRestarts restartWindow now hist).length

/-! ## HealthMonitor resource thresholds (core/monitor.py) -/

/-- Threshold state of `HealthMonitor` after `__init__`. -/
structure HealthMonitor where
  cpuWarning : Rat
  cpuCritical : Rat
  memoryWarning : Rat
  memoryCritical : Rat
  diskWarning : Rat
  diskCritical : Rat
  deriving DecidableEq, Repr

set_option linter.unusedVariables false in
/-- Model of `HealthMonitor.__init__`. Line 87 of core/monitor.py assigns
`memory_warning` to `self.memory_critical`; this definition reproduces
that assignment, so the `memoryCritical` argument is discarded. -/
def HealthMonitor.init (cpuWarning cpuCritical memoryWarning memoryCritical
    diskWarning diskCritical : Rat) : HealthMonitor :=
  { cpuWarning := cpuWarning
    cpuCritical := cpuCritical
    memoryWarning := memoryWarning
    memoryCritical := memoryWarning
    diskWarning := diskWarning
    diskCritical := diskCritical }

/-- A monitor built with the class's default thresholds
(`DEFAULT_CPU_WARNING` .. `DEFAULT_DISK_CRITICAL`). The unused
`memoryCritical` argument receives `DEFAULT_MEMORY_CRITICAL = 85`. -/
def defaultHealthMonitor : HealthMonitor :=
  HealthMonitor.init 70 90 70 85 80 90

/-- The stats dictionary produced by `_get_docker_stats` /
`_get_process_stats`: all four keys are always present. -/
structure ResourceStats where
  cpu : Rat
  memoryMb : Int
  memoryPercent : Rat
  diskPercent : Rat
  deriving DecidableEq, Repr

/-- The status classification of `HealthMonitor._check_resources`
(lines 277-304): three if/elif blocks, each critical branch overriding
the running status, each warning branch only upgrading a non-critical
status. -/
def HealthMonitor.classifyResources (m : HealthMonitor) (stats : ResourceStats) :
    HealthStatus :=
  let status := HealthStatus.healthy
  let status :=
    if stats.cpu ≥ m.cpuCritical then HealthStatus.critical
    else if stats.cpu ≥ m.cpuWarning then
      (if status ≠ HealthStatus.critical then HealthStatus.warning else status)
    else status
  let status :=
    if stats.memoryPercent ≥ m.memoryCritical then HealthStatus.critical
    else if stats.memoryPercent ≥ m.memoryWarning then
      (if status ≠ HealthStatus.critical then HealthStatus.warning else status)
    else status
  let status :=
    if stats.diskPercent ≥ m.diskCritical then HealthStatus.critical
    else if stats.diskPercent ≥ m.diskWarning then
      (if status ≠ HealthStatus.critical then HealthStatus.warning else status)
    else status
  status

/-! ## Log scan (core/monitor.py, HealthMonitor._check_log_errors) -/

/-- Name, status and message of a `HealthCheckResult` (the wall-clock
`timestamp` and free-form `value`/`threshold` fields are omitted). -/
structure HealthCheckResult where
  name : String
  status : HealthStatus
  message : String
  deriving DecidableEq, Repr

/-- Non-overlapping substring occurrence count over character lists;
`skip` tracks the characters still to pass over after a match, so this
is Python `str.count` for a non-empty needle. -/
def substrCountAux (needle : List Char) : List Char → Nat → Nat
  | [], _ => 0
  | _ :: rest, skip + 1 => substrCountAux needle rest skip
  | c :: rest, 0 =>
      if needle.isPrefixOf (c :: rest) then
        substrCountAux needle rest (needle.length - 1) + 1
      else
        substrCountAux needle rest 0

/-- Python `haystack.count(needle)` for the non-empty needles used by the
log scan. -/
def substrCount (needle hay : String) : Nat :=
  substrCountAux needle.toList hay.toList 0

/-- Model of `logs.lower().count("error")`. -/
def logErrorCount (logs : String) : Nat :=
  substrCount "error" (String.mk (logs.toList.map Char.toLower))

/-- Model of `logs.lower().count("warning")`. -/
def logWarningCount (logs : String) : Nat :=
  substrCount "warning" (String.mk (logs.toList.map Char.toLower))

/-- Model of `HealthMonitor._check_log_errors` on the log text returned by
`get_logs(follow=False, tail=100)` (messages keep the counts but drop the
f-string formatting details). -/
def checkLogErrors (logs : String) : HealthCheckResult :=
  let errorCount := logErrorCount logs
  let warningCount := logWarningCount logs
  if errorCount > 10 then
    { name := "Log Errors", status := HealthStatus.critical
      message := "Found " ++ toString errorCount ++ " errors in recent logs" }
  else if warningCount > 20 then
    { name := "Log Errors", status := HealthStatus.warning
      message := "Found " ++ toString warningCount ++ " warnings in recent logs" }
  else
    { name := "Log Errors", status := HealthStatus.healthy
      message := "Log levels normal" }

/-- Python `lines[-n:]`: the trailing `n` elements (the whole list when it
is shorter). -/
def pyTail (n : Nat) (l : List α) : List α :=
  l.drop (l.length - n)

/-- The log text handed to the scan: the deployer collaborator returns the
most recent 100 lines for `get_logs(tail=100)`, joined by newlines. -/
def getLogsTail (lines : List String) : String :=
  String.intercalate "\n" (pyTail 100 lines)

/-- The log-scan check as a function of the full log line list. -/
def checkLogErrorsOnLines (lines : List String) : HealthCheckResult :=
  checkLogErrors (getLogsTail lines)

/-! ## Claims about the monitor module -/

/-- C3 counterexample: with `max_restarts = 3` and `restart_window = 300`,
a history of exactly 3 restarts all inside the trailing window gives an
in-window count of 3, and `should_restart` already returns false — the
claim asserts it returns true after exactly 3 recorded restarts. -/
theorem C3_counterexample :
    getRestartCount 300 0 [0, 0, 0] = 3 ∧
    (shouldRestart 3 300 0 [0, 0, 0]).fst = false := by
  refine ⟨by decide, by decide⟩

/-- C3 (amended): with `max_restarts = 3`, `restart_window = 300`,
`should_restart` is true exactly while fewer than 3 recorded restarts lie
within the trailing window; after the 3rd in-window restart it is false,
and it stays false after a 4th; once the oldest recorded restart (the
head of the stored list) falls outside the trailing window,
`get_restart_count` drops it from the count. -/
theorem C3_restart_window :
    (∀ now hist,
      ((shouldRestart 3 300 now hist).fst = true ↔ getRestartCount 300 now hist < 3)) ∧
    (∀ now hist, getRestartCount 300 now hist = 3 →
      (shouldRestart 3 300 now hist).fst = false) ∧
    (∀ now hist, getRestartCount 300 now hist = 4 →
      (shouldRestart 3 300 now hist).fst = false) ∧
    (∀ now t hist, 300 ≤ now - t →
      getRestartCount 300 now (t :: hist) = getRestartCount 300 now hist) := by
  refine ⟨fun now hist => ?_, fun now hist h => ?_, fun now hist h => ?_,
    fun now t hist h => ?_⟩
  · simp [shouldRestart, getRestartCount]
  · simp [shouldRestart, getRestartCount] at h ⊢
    omega
  · simp [shouldRestart, getRestartCount] at h ⊢
    omega
  · have hc : ¬ (now - t < 300) := by omega
    simp [getRestartCount, pruneRestarts, List.filter_cons, hc]

/-- Witness for C3: concrete instances of each hypothesis of
`C3_restart_window`. -/
theorem C3_restart_window_witness :
    (shouldRestart 3 300 0 [0, 0, 0]).fst = false ∧
    (shouldRestart 3 300 0 [0, 0, 0, 0]).fst = false ∧
    getRestartCount 300 0 ((-300) :: [0, 0]) = getRestartCount 300 0 [0, 0] :=
  ⟨C3_restart_window.2.1 0 [0, 0, 0] (by decide),
   C3_restart_window.2.2.1 0 [0, 0, 0, 0] (by decide),
   C3_restart_window.2.2.2 0 (-300) [0, 0] (by decide)⟩

/-- C4: the claim says a default-threshold monitor uses memory
warning 70 / critical 85; the constructor assigns `memory_warning` to
`self.memory_critical` (core/monitor.py line 87), so the default monitor
holds `memoryCritical = 70` and a snapshot with memory at 75 percent
(all other usage zero) classifies as critical, not warning. The third
conjunct shows that a monitor carrying the documented thresholds would
classify the same snapshot as warning. -/
theorem C4_default_memory_critical_bug :
    defaultHealthMonitor.memoryCritical = 70 ∧
    defaultHealthMonitor.classifyResources ⟨0, 0, 75, 0⟩ = HealthStatus.critical ∧
    HealthMonitor.classifyResources
        { cpuWarning := 70, cpuCritical := 90, memoryWarning := 70,
          memoryCritical := 85, diskWarning := 80, diskCritical := 90 }
        ⟨0, 0, 75, 0⟩ = HealthStatus.warning := by
  refine ⟨by decide, by decide, by decide⟩

/-- C5 counterexample: 11 recent log lines, each containing "exception"
and "critical" but neither "error" nor "warning". Counting occurrences of
error/critical/exception as the claim states would put the count above 10
and escalate to critical; the code counts only the substring "error", so
the count is 0 and the check reports healthy. -/
theorem C5_counterexample :
    (checkLogErrorsOnLines (List.replicate 11 "Exception CRITICAL")).status =
      HealthStatus.healthy ∧
    logErrorCount (getLogsTail (List.replicate 11 "Exception CRITICAL")) = 0 := by
  refine ⟨by decide, by decide⟩

/-- C5 (amended): the check examines only the most recent 100 log lines
and counts case-insensitive occurrences of "error" and of "warning"
(not "critical"/"exception"); more than 10 "error" occurrences give a
critical check, otherwise more than 20 "warning" occurrences give a
warning check, otherwise the check is healthy. -/
theorem C5_log_scan :
    (∀ lines, checkLogErrorsOnLines lines =
      checkLogErrors (getLogsTail (pyTail 100 lines))) ∧
    (∀ logs, 10 < logErrorCount logs →
      (checkLogErrors logs).status = HealthStatus.critical) ∧
    (∀ logs, logErrorCount logs ≤ 10 → 20 < logWarningCount logs →
      (checkLogErrors logs).status = HealthStatus.warning) ∧
    (∀ logs, logErrorCount logs ≤ 10 → logWarningCount logs ≤ 20 →
      (checkLogErrors logs).status = HealthStatus.healthy) := by
  refine ⟨fun lines => ?_, fun logs h => ?_, fun logs h1 h2 => ?_,
    fun logs h1 h2 => ?_⟩
  · unfold checkLogErrorsOnLines getLogsTail pyTail
    rw [List.length_drop]
    have hz : lines.length - (lines.length - 100) - 100 = 0 := by omega
    rw [hz, List.drop_zero]
  · simp only [checkLogErrors]
    rw [if_pos h]
  · simp only [checkLogErrors]
    rw [if_neg (by omega), if_pos h2]
  · simp only [checkLogErrors]
    rw [if_neg (by omega), if_neg (by omega)]

/-- Witness for C5: concrete instances of the hypotheses of
`C5_log_scan`. -/
theorem C5_log_scan_witness :
    (checkLogErrors
      "error error error error error error error error error error error").status =
      HealthStatus.critical ∧
    (checkLogErrors "clean boot").status = HealthStatus.healthy :=
  ⟨C5_log_scan.2.1 _ (by decide),
   C5_log_scan.2.2.2 "clean boot" (by decide) (by decide)⟩

/-! ## Scheduler (core/scheduler.py, class SchedulerManager)

The in-memory state is the `self.tasks` dictionary plus the APScheduler
job table (`self.scheduler`). Python dictionaries preserve insertion
order and update in place, modelled by `setTask`/`setJob` below.
`CronTrigger` construction and `add_job` belong to the external
APScheduler library; `add_job` with `replace_existing=True` is modelled
as a keyed replace-or-append on the job table, and `CronTrigger` is
assumed to accept the five field strings. -/

/-- The fields of `ScheduledTask` other than the opaque callable and its
keyword arguments. -/
structure ScheduledTask where
  taskId : String
  cronExpression : String
  name : String
  deriving DecidableEq, Repr

/-- An APScheduler job as registered by `add_job` and read back by
`list_tasks` (the wall-clock `next_run` field is omitted). -/
structure SchedJob where
  id : String
  name : String
  triggerFields : List String
  deriving DecidableEq, Repr

/-- The mutable state of a `SchedulerManager`. -/
structure SchedulerState where
  tasks : List (String × ScheduledTask)
  jobs : List SchedJob
  deriving DecidableEq, Repr

/-- Python dictionary assignment `tasks[task_id] = task`: replace in
place when the key exists, append otherwise. -/
def setTask (tasks : List (String × ScheduledTask)) (key : String)
    (t : ScheduledTask) : List (String × ScheduledTask) :=
  if tasks.any (fun p => p.fst == key) then
    tasks.map (fun p => if p.fst == key then (key, t) else p)
  else
    tasks ++ [(key, t)]

/-- APScheduler `add_job(..., replace_existing=True)`: replace the job
with the same id in place, append otherwise. -/
def setJob (jobs : List SchedJob) (j : SchedJob) : List SchedJob :=
  if jobs.any (fun p => p.id == j.id) then
    jobs.map (fun p => if p.id == j.id then j else p)
  else
    jobs ++ [j]

/-- Helper for `pySplitWs`: scans the characters, accumulating the
current (reversed) field and emitting it at each whitespace run. -/
def splitWsAux : List Char → List Char → List String
  | [], acc => if acc = [] then [] else [String.mk acc.reverse]
  | c :: rest, acc =>
      if c.isWhitespace then
        (if acc = [] then splitWsAux rest []
         else String.mk acc.reverse :: splitWsAux rest [])
      else splitWsAux rest (c :: acc)

/-- Python `cron_expression.split()` with no separator argument: split on
whitespace runs, producing no empty fields. -/
def pySplitWs (s : String) : List String :=
  splitWsAux s.toList []

/-- Model of `SchedulerManager.add_task` (core/scheduler.py lines 111-155). The
task table is assigned before the cron expression is validated; a cron
string that does not split into exactly five fields then raises
ValueError (the `some` error component) with the task table already
mutated and no job registered. -/
def addTask (st : SchedulerState) (taskId : String) (cron : String)
    (name : Option String) : SchedulerState × Option String :=
  let task : ScheduledTask :=
    { taskId := taskId, cronExpression := cron, name := name.getD taskId }
  let st := { st with tasks := setTask st.tasks taskId task }
  let parts := pySplitWs cron
  if parts.length ≠ 5 then
    (st, some ("Invalid cron expression: " ++ cron))
  else
    ({ st with
        jobs := setJob st.jobs
          { id := taskId, name := name.getD taskId, triggerFields := parts } },
     none)

/-- Model of `SchedulerManager.list_tasks`: reads the APScheduler job table, not
`self.tasks`; returns id and name per job. -/
def listTasks (st : SchedulerState) : List (String × String) :=
  st.jobs.map (fun j => (j.id, j.name))

/-- Model of `SchedulerManager.get_task`: `self.tasks.get(task_id)`. -/
def getTask (st : SchedulerState) (taskId : String) : Option ScheduledTask :=
  (st.tasks.find? (fun p => p.fst == taskId)).map Prod.snd

/-- Lookup of a job by id in the APScheduler table. -/
def getJob (st : SchedulerState) (taskId : String) : Option SchedJob :=
  st.jobs.find? (fun j => j.id == taskId)

/-! ### Claims about the scheduler -/

theorem find?_replace_task (l : List (String × ScheduledTask)) (key : String)
    (t : ScheduledTask) (h : l.any (fun p => p.fst == key) = true) :
    (l.map (fun p => if p.fst == key then (key, t) else p)).find?
      (fun p => p.fst == key) = some (key, t) := by
  induction l with
  | nil => simp at h
  | cons a l ih =>
    by_cases ha : (a.fst == key) = true
    · rw [List.map_cons, if_pos ha, List.find?_cons_of_pos _ (by simp)]
    · have ha' : (a.fst == key) = false := by
        cases hb : (a.fst == key)
        · rfl
        · exact absurd hb ha
      rw [List.any_cons, ha', Bool.false_or] at h
      rw [List.map_cons, if_neg ha,
        List.find?_cons_of_neg (p := fun (q : String × ScheduledTask) => q.fst == key) _ ha]
      exact ih h

theorem find?_append_task (l : List (String × ScheduledTask)) (key : String)
    (t : ScheduledTask) (h : l.any (fun p => p.fst == key) = false) :
    (l ++ [(key, t)]).find? (fun p => p.fst == key) = some (key, t) := by
  induction l with
  | nil => rw [List.nil_append, List.find?_cons_of_pos _ (by simp)]
  | cons a l ih =>
    rw [List.any_cons, Bool.or_eq_false_iff] at h
    have ha : ¬ ((a.fst == key) = true) := by simp [h.1]
    rw [List.cons_append,
      List.find?_cons_of_neg (p := fun (q : String × ScheduledTask) => q.fst == key) _ ha]
    exact ih h.2

theorem find?_setTask (tasks : List (String × ScheduledTask)) (key : String)
    (t : ScheduledTask) :
    (setTask tasks key t).find? (fun p => p.fst == key) = some (key, t) := by
  unfold setTask
  split
  case isTrue h => exact find?_replace_task tasks key t h
  case isFalse h =>
    have h' : tasks.any (fun p => p.fst == key) = false := by
      cases hb : tasks.any (fun p => p.fst == key)
      · rfl
      · exact absurd hb h
    exact find?_append_task tasks key t h'

theorem find?_replace_job (l : List SchedJob) (j : SchedJob) (key : String)
    (hk : j.id = key) (h : l.any (fun p => p.id == j.id) = true) :
    (l.map (fun p => if p.id == j.id then j else p)).find?
      (fun p => p.id == key) = some j := by
  subst hk
  induction l with
  | nil => simp at h
  | cons a l ih =>
    by_cases ha : (a.id == j.id) = true
    · rw [List.map_cons, if_pos ha, List.find?_cons_of_pos _ (by simp)]
    · have ha' : (a.id == j.id) = false := by
        cases hb : (a.id == j.id)
        · rfl
        · exact absurd hb ha
      rw [List.any_cons, ha', Bool.false_or] at h
      rw [List.map_cons, if_neg ha,
        List.find?_cons_of_neg (p := fun (q : SchedJob) => q.id == j.id) _ ha]
      exact ih h

theorem find?_append_job (l : List SchedJob) (j : SchedJob) (key : String)
    (hk : j.id = key) (h : l.any (fun p => p.id == j.id) = false) :
    (l ++ [j]).find? (fun p => p.id == key) = some j := by
  subst hk
  induction l with
  | nil => rw [List.nil_append, List.find?_cons_of_pos _ (by simp)]
  | cons a l ih =>
    rw [List.any_cons, Bool.or_eq_false_iff] at h
    have ha : ¬ ((a.id == j.id) = true) := by simp [h.1]
    rw [List.cons_append,
      List.find?_cons_of_neg (p := fun (q : SchedJob) => q.id == j.id) _ ha]
    exact ih h.2

theorem find?_setJob (jobs : List SchedJob) (j : SchedJob) (key : String)
    (hk : j.id = key) :
    (setJob jobs j).find? (fun p => p.id == key) = some j := by
  unfold setJob
  split
  case isTrue h => exact find?_replace_job jobs j key hk h
  case isFalse h =>
    have h' : jobs.any (fun p => p.id == j.id) = false := by
      cases hb : jobs.any (fun p => p.id == j.id)
      · rfl
      · exact absurd hb h
    exact find?_append_job jobs j key hk h'

theorem any_of_getJob_isSome (st : SchedulerState) (taskId : String)
    (h : (getJob st taskId).isSome = true) :
    st.jobs.any (fun j => j.id == taskId) = true := by
  unfold getJob at h
  rw [List.find?_isSome] at h
  rw [List.any_eq_true]
  simpa using h

/-- C8 counterexample: adding a task with the 4-field cron string
"0 2 * *" raises ValueError and registers no job (it is absent from
`list_tasks`), but the task has already been written into the
scheduler's task table and is returned by `get_task` — so the failed
call does not leave the task state unchanged. -/
theorem C8_counterexample :
    (addTask ⟨[], []⟩ "nightly" "0 2 * *" none).snd.isSome = true ∧
    listTasks (addTask ⟨[], []⟩ "nightly" "0 2 * *" none).fst = [] ∧
    getTask (addTask ⟨[], []⟩ "nightly" "0 2 * *" none).fst "nightly" =
      some { taskId := "nightly", cronExpression := "0 2 * *", name := "nightly" } := by
  refine ⟨by decide, by decide, by decide⟩

/-- C8 (amended): a cron expression that does not split into exactly five
whitespace-separated fields makes `add_task` fail before any job is
registered (the job table is unchanged and the task never appears in
`list_tasks`), but the scheduler's task table has already been updated
with the new task; a well-formed five-field expression succeeds, the
task appears in `list_tasks`, and re-adding an existing `task_id`
replaces the existing entry (same job id, new trigger, table size
unchanged). -/
theorem C8_add_task :
    (∀ st id cron nm, (pySplitWs cron).length ≠ 5 →
      ((addTask st id cron nm).snd.isSome = true ∧
       (addTask st id cron nm).fst.jobs = st.jobs ∧
       getTask (addTask st id cron nm).fst id =
         some { taskId := id, cronExpression := cron, name := nm.getD id })) ∧
    (∀ st id cron nm, (pySplitWs cron).length = 5 →
      ((addTask st id cron nm).snd = none ∧
       (id, nm.getD id) ∈ listTasks (addTask st id cron nm).fst ∧
       getJob (addTask st id cron nm).fst id =
         some { id := id, name := nm.getD id, triggerFields := pySplitWs cron } ∧
       getTask (addTask st id cron nm).fst id =
         some { taskId := id, cronExpression := cron, name := nm.getD id })) ∧
    (∀ st id cron nm, (getJob st id).isSome = true → (pySplitWs cron).length = 5 →
      (addTask st id cron nm).fst.jobs.length = st.jobs.length) := by
  refine ⟨fun st id cron nm h => ?_, fun st id cron nm h => ?_,
    fun st id cron nm hj h => ?_⟩
  · simp only [addTask]
    rw [if_pos h]
    refine ⟨rfl, rfl, ?_⟩
    unfold getTask
    simp only []
    rw [find?_setTask]
    rfl
  · simp only [addTask]
    rw [if_neg (fun hn => hn h)]
    refine ⟨rfl, ?_, ?_, ?_⟩
    · have hfind := find?_setJob st.jobs
        { id := id, name := nm.getD id, triggerFields := pySplitWs cron } id rfl
      have hmem := List.mem_of_find?_eq_some hfind
      exact List.mem_map_of_mem (fun j => (j.id, j.name)) hmem
    · exact find?_setJob st.jobs
        { id := id, name := nm.getD id, triggerFields := pySplitWs cron } id rfl
    · unfold getTask
      simp only []
      rw [find?_setTask]
      rfl
  · simp only [addTask]
    rw [if_neg (fun hn => hn h)]
    simp only []
    unfold setJob
    rw [if_pos (any_of_getJob_isSome st id hj)]
    exact List.length_map _ _

/-- Witness for C8: concrete instances of the hypotheses of
`C8_add_task`, including an id replacement. -/
theorem C8_add_task_witness :
    ((addTask ⟨[], []⟩ "backup" "0 2 * * 1" none).snd = none ∧
     ("backup", "backup") ∈ listTasks (addTask ⟨[], []⟩ "backup" "0 2 * * 1" none).fst ∧
     getJob (addTask ⟨[], []⟩ "backup" "0 2 * * 1" none).fst "backup" =
       some { id := "backup", name := "backup",
              triggerFields := ["0", "2", "*", "*", "1"] } ∧
     getTask (addTask ⟨[], []⟩ "backup" "0 2 * * 1" none).fst "backup" =
       some { taskId := "backup", cronExpression := "0 2 * * 1", name := "backup" }) ∧
    (addTask (addTask ⟨[], []⟩ "backup" "0 2 * * 1" none).fst
        "backup" "0 3 * * 1" none).fst.jobs.length =
      (addTask ⟨[], []⟩ "backup" "0 2 * * 1" none).fst.jobs.length := by
  refine ⟨?_, ?_⟩
  · have := C8_add_task.2.1 ⟨[], []⟩ "backup" "0 2 * * 1" none (by decide)
    simpa [pySplitWs, splitWsAux] using this
  · exact C8_add_task.2.2 (addTask ⟨[], []⟩ "backup" "0 2 * * 1" none).fst
      "backup" "0 3 * * 1" none (by decide) (by decide)

/-! ## Environments (core/environment.py)

`EnvironmentConfig.tier` is validated by config.py to be one of
"dev"/"staging"/"production", so tiers are a three-valued inductive. -/

/-- The `EnvironmentTier` values (constants ENV_TIER_DEV,
ENV_TIER_STAGING, ENV_TIER_PRODUCTION). -/
inductive Tier where
  | dev
  | staging
  | production
  deriving DecidableEq, Repr

/-- The string value of a tier constant. -/
def tierName : Tier → String
  | Tier.dev => "dev"
  | Tier.staging => "staging"
  | Tier.production => "production"

/-- The fixed `tier_order` list used by promote and `_get_next_tier`. -/
def tierOrder : List Tier := [Tier.dev, Tier.staging, Tier.production]

/-- Python `tier_order.index(tier)` (total here because tiers are
validated). -/
def tierIndex (t : Tier) : Nat := tierOrder.indexOf t

/-- Model of `EnvironmentManager._get_next_tier` (lines 461-472). -/
def getNextTier (t : Tier) : Option Tier :=
  let idx := tierIndex t
  if idx + 1 < tierOrder.length then tierOrder[idx + 1]? else none

/-- The fields of `config.EnvironmentConfig` read by the operations
modelled here. -/
structure EnvConfig where
  name : String
  tier : Tier
  autoDeployBranches : List String
  gitRepo : Option String
  deriving DecidableEq, Repr

/-- The `DeploymentHistory` dataclass of core/environment.py; timestamps
are integer seconds. -/
structure DeploymentRecord where
  id : String
  environment : String
  branch : String
  commit : String
  author : String
  timestamp : Nat
  status : String
  message : String
  rollbackFrom : Option String
  deriving DecidableEq, Repr

/-- The descending-timestamp order used by `get_deployment_history`. -/
def newerFirst (a b : DeploymentRecord) : Prop :=
  b.timestamp ≤ a.timestamp

instance : DecidableRel newerFirst :=
  fun a b => Nat.decLe b.timestamp a.timestamp

/-- Python `records.sort(key=lambda r: r.timestamp, reverse=True)`: a
stable descending sort. Python's sort is stable, and all stable sorts
under the same total preorder yield the same list, so the stable
insertion sort is the same function. -/
def sortNewestFirst (records : List DeploymentRecord) : List DeploymentRecord :=
  List.insertionSort newerFirst records

/-- Model of `EnvironmentManager.get_deployment_history` (lines 389-429) for one
environment's stored record list: sort newest first, truncate to
`limit`. -/
def getDeploymentHistory (stored : List DeploymentRecord) (limit : Nat) :
    List DeploymentRecord :=
  (sortNewestFirst stored).take limit

/-- Model of `EnvironmentManager._record_deployment` (lines 480-513) for one
environment: append the new record, keep the trailing 50
(`data[env] = data[env][-50:]`). -/
def recordDeployment (stored : List DeploymentRecord) (h : DeploymentRecord) :
    List DeploymentRecord :=
  pyTail 50 (stored ++ [h])

/-- Model of `EnvironmentManager._get_last_deployment`. -/
def getLastDeployment (stored : List DeploymentRecord) : Option DeploymentRecord :=
  (getDeploymentHistory stored 1).head?

/-! ### C7: history cap and read order -/

/-- C7: the per-environment stored history never exceeds 50 records
(each deploy appends one record and drops the oldest beyond 50), and
`get_deployment_history(env, limit=N)` returns exactly
`min(N, stored)` records ordered by timestamp descending. -/
theorem C7_history :
    (∀ stored h, (recordDeployment stored h).length ≤ 50) ∧
    (∀ stored h, stored.length < 50 → recordDeployment stored h = stored ++ [h]) ∧
    (∀ stored n, (getDeploymentHistory stored n).length = min n stored.length) ∧
    (∀ stored n, (getDeploymentHistory stored n).Pairwise newerFirst) := by
  refine ⟨fun stored h => ?_, fun stored h hlt => ?_, fun stored n => ?_,
    fun stored n => ?_⟩
  · simp only [recordDeployment, pyTail, List.length_drop, List.length_append,
      List.length_singleton]
    omega
  · unfold recordDeployment pyTail
    have hz : (stored ++ [h]).length - 50 = 0 := by
      simp only [List.length_append, List.length_singleton]
      omega
    rw [hz, List.drop_zero]
  · simp [getDeploymentHistory, sortNewestFirst, List.length_take,
      List.length_insertionSort]
  · haveI : IsTotal DeploymentRecord newerFirst :=
      ⟨fun a b => le_total b.timestamp a.timestamp⟩
    haveI : IsTrans DeploymentRecord newerFirst :=
      ⟨fun _ _ _ hab hbc => le_trans hbc hab⟩
    have hs : (sortNewestFirst stored).Pairwise newerFirst :=
      List.sorted_insertionSort newerFirst stored
    exact hs.sublist (List.take_sublist n _)

/-- A deployment record used in concrete instances. -/
def demoDeployRecord : DeploymentRecord :=
  { id := "production-1", environment := "production", branch := "main",
    commit := "abc123", author := "alice", timestamp := 100,
    status := "success", message := "", rollbackFrom := none }

/-- Witness for C7: an append below the cap. -/
theorem C7_history_witness :
    recordDeployment [] demoDeployRecord = [] ++ [demoDeployRecord] :=
  C7_history.2.1 [] demoDeployRecord (by decide)

/-! ### C10: auto-deploy matching -/

/-- The collaborators of `should_auto_deploy`: the persisted environment
registry and `fnmatch.fnmatch` (Python standard library, external to the
repository), modelled as an abstract matcher. -/
structure AutoDeployWorld where
  envs : String → Option EnvConfig
  fnmatch : String → String → Bool

/-- Model of `EnvironmentManager._match_branch_pattern` (lines 474-478):
`fnmatch.fnmatch(branch, pattern)`. -/
def matchBranchPattern (w : AutoDeployWorld) (branch pat : String) : Bool :=
  w.fnmatch branch pat

/-- Model of `EnvironmentManager.should_auto_deploy` (lines 368-387): a missing
environment raises EnvironmentNotFoundError inside the method, which
catches it and returns False; otherwise the branch is matched against
each configured pattern, returning True on the first match. -/
def shouldAutoDeploy (w : AutoDeployWorld) (environment branch : String) : Bool :=
  match w.envs environment with
  | none => false
  | some env =>
      env.autoDeployBranches.any (fun pat => matchBranchPattern w branch pat)

/-- C10: `should_auto_deploy` never raises for an unregistered
environment — it returns false — and otherwise it returns true exactly
when the branch matches at least one configured auto-deploy pattern. -/
theorem C10_should_auto_deploy :
    (∀ w environment branch, w.envs environment = none →
      shouldAutoDeploy w environment branch = false) ∧
    (∀ w environment branch env, w.envs environment = some env →
      (shouldAutoDeploy w environment branch = true ↔
        ∃ pat ∈ env.autoDeployBranches, w.fnmatch branch pat = true)) := by
  refine ⟨fun w environment branch h => ?_, fun w environment branch env h => ?_⟩
  · unfold shouldAutoDeploy
    rw [h]
  · unfold shouldAutoDeploy
    rw [h]
    simp [matchBranchPattern, List.any_eq_true]

/-- A concrete world for the C10 witness: one environment with two
literal auto-deploy patterns and literal string matching. -/
def demoAutoDeployWorld : AutoDeployWorld :=
  { envs := fun n =>
      if n = "staging" then
        some { name := "staging", tier := Tier.staging,
               autoDeployBranches := ["develop", "feature-x"], gitRepo := none }
      else none
    fnmatch := fun branch pat => branch == pat }

/-- Witness for C10: both hypotheses discharged at a concrete world. -/
theorem C10_should_auto_deploy_witness :
    shouldAutoDeploy demoAutoDeployWorld "missing" "develop" = false ∧
    shouldAutoDeploy demoAutoDeployWorld "staging" "develop" = true :=
  ⟨C10_should_auto_deploy.1 demoAutoDeployWorld "missing" "develop" (by decide),
   (C10_should_auto_deploy.2 demoAutoDeployWorld "staging" "develop"
      { name := "staging", tier := Tier.staging,
        autoDeployBranches := ["develop", "feature-x"], gitRepo := none }
      (by decide)).2 ⟨"develop", by decide, by decide⟩⟩

/-! ### C6: promotion and tier order -/

/-- Python truthiness for an optional string: None and "" are falsy. -/
def pyStrTruthy : Option String → Bool
  | none => false
  | some s => s != ""

/-- The collaborators of `EnvironmentManager.promote`: the environment
registry, the branch reported by `git_manager.get_status(repo)` (None
models both a GitError and a detached/absent branch), and the outcome of
`EnvironmentManager.deploy(environment, branch, repo)`. -/
structure PromoteWorld where
  envs : String → Option EnvConfig
  branchOf : String → Option String
  deployOutcome : String → String → Option String → Except String DeploymentRecord

/-- The `git_branch` field computed by `get_status` (lines 231-239): set
only when the environment has a truthy bound repo and git succeeds; a
GitError is swallowed, leaving it None. The other `EnvironmentStatus`
fields are not read by promote and are not modelled. -/
def statusGitBranch (w : PromoteWorld) (env : EnvConfig) : Option String :=
  match env.gitRepo with
  | none => none
  | some r => if r = "" then none else w.branchOf r

/-- The exceptions `promote` can raise (ValueError and
EnvironmentNotFoundError sites, plus a propagated deploy failure). -/
inductive PromoteError where
  | environmentNotFound (name : String)
  | noBranchDeployed (sourceEnv : String)
  | cannotPromoteFrom (tier : Tier)
  | tierOrderViolation (sourceTier targetTier : Tier)
  | deployFailed (msg : String)
  deriving DecidableEq, Repr

/-- Model of `EnvironmentManager.promote` (lines 320-366): resolve the source,
require a deployed (truthy) branch, resolve the target environment name
(the next tier's name when the argument is omitted, rejecting a falsy
result), resolve the target, require strict tier progression
(`target_idx > source_idx`), then deploy the source's branch to the
target with the source's repo. -/
def promote (w : PromoteWorld) (sourceEnv : String) (targetEnvArg : Option String) :
    Except PromoteError DeploymentRecord :=
  match w.envs sourceEnv with
  | none => Except.error (PromoteError.environmentNotFound sourceEnv)
  | some source =>
    match statusGitBranch w source with
    | none => Except.error (PromoteError.noBranchDeployed sourceEnv)
    | some branch =>
      if branch = "" then Except.error (PromoteError.noBranchDeployed sourceEnv)
      else
        match targetEnvArg with
        | none =>
          match (getNextTier source.tier).map tierName with
          | none => Except.error (PromoteError.cannotPromoteFrom source.tier)
          | some targetEnv => promoteToTarget w source branch targetEnv
        | some targetEnv =>
          if targetEnv = "" then
            Except.error (PromoteError.cannotPromoteFrom source.tier)
          else promoteToTarget w source branch targetEnv
where
  /-- The tail of promote after the target environment name is known:
  `get_environment(target_env)`, the tier-order check, and the deploy
  call. A next-tier name is never empty, so the falsy check is only
  reachable for an explicit argument. -/
  promoteToTarget (w : PromoteWorld) (source : EnvConfig) (branch targetEnv : String) :
      Except PromoteError DeploymentRecord :=
    match w.envs targetEnv with
    | none => Except.error (PromoteError.environmentNotFound targetEnv)
    | some target =>
      if tierIndex target.tier ≤ tierIndex source.tier then
        Except.error (PromoteError.tierOrderViolation source.tier target.tier)
      else
        match w.deployOutcome targetEnv branch source.gitRepo with
        | Except.ok r => Except.ok r
        | Except.error e => Except.error (PromoteError.deployFailed e)

/-- A three-environment registry (one per tier) for concrete instances. -/
def demoEnvs : String → Option EnvConfig := fun n =>
  if n = "dev" then
    some { name := "dev", tier := Tier.dev, autoDeployBranches := [],
           gitRepo := some "repo" }
  else if n = "staging" then
    some { name := "staging", tier := Tier.staging, autoDeployBranches := [],
           gitRepo := some "repo" }
  else if n = "production" then
    some { name := "production", tier := Tier.production, autoDeployBranches := [],
           gitRepo := some "repo" }
  else none

/-- A concrete promote world: every environment shares the repo "repo",
currently on branch "main"; deploys always succeed. -/
def demoPromoteWorld : PromoteWorld :=
  { envs := demoEnvs
    branchOf := fun r => if r = "repo" then some "main" else none
    deployOutcome := fun environment branch _repo =>
      Except.ok { demoDeployRecord with environment := environment, branch := branch } }

deriving instance DecidableEq for Except

/-- The tail of a successful `promoteToTarget` run: the target exists
and sits strictly above the source in the tier order. -/
theorem promoteToTarget_ok (w : PromoteWorld) (src : EnvConfig) (b tn : String)
    (r : DeploymentRecord)
    (hok : promote.promoteToTarget w src b tn = Except.ok r) :
    ∃ tgt, w.envs tn = some tgt ∧ tierIndex src.tier < tierIndex tgt.tier := by
  unfold promote.promoteToTarget at hok
  split at hok
  · simp at hok
  next tgt heq =>
    split at hok
    · simp at hok
    next hord => exact ⟨tgt, heq, by omega⟩

/-- C6: a successful promote implies a strict tier increase between the
resolved source and target environments; with the source resolved and
carrying a deployed branch and the target resolved, a non-increasing
tier order yields exactly the ordering error; concretely,
staging to dev fails with the ordering error while staging to production
succeeds; and with the target omitted, the next tier after the source's
tier is used as the target name and the source's current branch is
handed to the deploy call together with the source's repo. -/
theorem C6_promotion :
    (∀ w s targ r, promote w s targ = Except.ok r →
      ∃ src tn tgt, w.envs s = some src ∧ w.envs tn = some tgt ∧
        tierIndex src.tier < tierIndex tgt.tier) ∧
    (∀ w s tn src tgt b, w.envs s = some src → statusGitBranch w src = some b →
      b ≠ "" → tn ≠ "" → w.envs tn = some tgt →
      tierIndex tgt.tier ≤ tierIndex src.tier →
      promote w s (some tn) =
        Except.error (PromoteError.tierOrderViolation src.tier tgt.tier)) ∧
    (promote demoPromoteWorld "staging" (some "dev") =
      Except.error (PromoteError.tierOrderViolation Tier.staging Tier.dev)) ∧
    (promote demoPromoteWorld "staging" (some "production") =
      Except.ok { demoDeployRecord with environment := "production", branch := "main" }) ∧
    (∀ w s src b nt tgt, w.envs s = some src → statusGitBranch w src = some b →
      b ≠ "" → getNextTier src.tier = some nt → w.envs (tierName nt) = some tgt →
      tierIndex src.tier < tierIndex tgt.tier →
      promote w s none =
        (w.deployOutcome (tierName nt) b src.gitRepo).mapError
          PromoteError.deployFailed) := by
  refine ⟨fun w s targ r hok => ?_, fun w s tn src tgt b h1 h2 hb htn h3 hord => ?_,
    by decide, by decide, fun w s src b nt tgt h1 h2 hb hnt h3 hord => ?_⟩
  · unfold promote at hok
    split at hok
    · simp at hok
    next src heq1 =>
      split at hok
      · simp at hok
      next b heq2 =>
        split at hok
        · simp at hok
        next hb =>
          split at hok
          · split at hok
            · simp at hok
            next tn heq3 =>
              obtain ⟨tgt, h4, hlt⟩ := promoteToTarget_ok w src b tn r hok
              exact ⟨src, tn, tgt, heq1, h4, hlt⟩
          next tn =>
            split at hok
            · simp at hok
            next htn =>
              obtain ⟨tgt, h4, hlt⟩ := promoteToTarget_ok w src b tn r hok
              exact ⟨src, tn, tgt, heq1, h4, hlt⟩
  · simp only [promote, h1, h2, hb, if_false]
    rw [if_neg htn]
    simp only [promote.promoteToTarget, h3]
    rw [if_pos hord]
  · simp only [promote, h1, h2, hb, if_false, hnt, Option.map_some']
    simp only [promote.promoteToTarget, h3]
    rw [if_neg (by omega)]
    cases w.deployOutcome (tierName nt) b src.gitRepo <;> rfl

/-- Witness for C6: the omitted-target conjunct applied at the concrete
world (staging promotes to production with branch "main"). -/
theorem C6_promotion_witness :
    promote demoPromoteWorld "staging" none =
      (demoPromoteWorld.deployOutcome "production" "main" (some "repo")).mapError
        PromoteError.deployFailed :=
  C6_promotion.2.2.2.2 demoPromoteWorld "staging"
    { name := "staging", tier := Tier.staging, autoDeployBranches := [],
      gitRepo := some "repo" }
    "main" Tier.production
    { name := "production", tier := Tier.production, autoDeployBranches := [],
      gitRepo := some "repo" }
    (by decide) (by decide) (by decide) (by decide) (by decide) (by decide)

/-! ## CI/CD pipeline (core/cicd.py)

The six validators hit the filesystem, a subprocess runner and the
database probe; those effects are captured in `ValidationEffects`, one
field per probe, each validator translated branch for branch. Float
durations and the `details` dictionaries are omitted from
`ValidationResult`, and the wall-clock components of result ids and
timestamps are omitted from `PipelineResult`. -/

/-- Name, status and message of a `ValidationResult`. -/
structure ValidationResult where
  name : String
  status : ValidationStatus
  message : String
  deriving DecidableEq, Repr

/-- Model of `PipelineConfig` with its dataclass defaults. -/
structure PipelineConfig where
  runTests : Bool := true
  testCommand : String := "pytest tests/ -v"
  lintPython : Bool := true
  lintXml : Bool := true
  checkMigrations : Bool := true
  minDiskSpaceGb : Nat := 5
  rollbackOnFailure : Bool := true
  zeroDowntime : Bool := true
  deriving DecidableEq, Repr

/-- The default `PipelineConfig()` built by `CICDPipeline.__init__`. -/
def defaultPipelineConfig : PipelineConfig := {}

/-- Model of `PipelineResult` (id timestamps and started/completed times
omitted). -/
structure PipelineResult where
  id : String
  environment : String
  branch : String
  commit : String
  status : ValidationStatus
  validations : List ValidationResult
  deployment : Option DeploymentRecord
  rollbackDeployment : Option DeploymentRecord
  errorMessage : String
  deriving DecidableEq, Repr

/-- Outcome of the `subprocess.run` in `_run_tests`. -/
inductive TestsOutcome where
  | noTestsDir
  | exitCode (code : Nat)
  | timedOut
  | raised (msg : String)
  deriving DecidableEq, Repr

/-- One snapshot of everything the six validators probe. -/
structure ValidationEffects where
  syntaxErrors : List String
  xmlParserAvailable : Bool
  xmlErrors : List String
  diskFreeBytes : Option Nat
  dbProbe : Option Bool
  tests : TestsOutcome
  migrationFiles : List String
  deriving DecidableEq, Repr

/-- Model of `_validate_python_syntax`: failed exactly when the compile loop
collected errors. -/
def pythonSyntaxStage (fx : ValidationEffects) : ValidationResult :=
  if fx.syntaxErrors ≠ [] then
    { name := "Python Syntax", status := ValidationStatus.failed
      message := "Found " ++ toString fx.syntaxErrors.length ++ " syntax error(s)" }
  else
    { name := "Python Syntax", status := ValidationStatus.passed
      message := "No syntax errors found" }

/-- Model of `_validate_xml`: skipped when the parser import fails, failed exactly
when parse errors were collected. -/
def validateXml (fx : ValidationEffects) : ValidationResult :=
  if fx.xmlParserAvailable = false then
    { name := "XML Validation", status := ValidationStatus.skipped
      message := "XML parser not available" }
  else if fx.xmlErrors ≠ [] then
    { name := "XML Validation", status := ValidationStatus.failed
      message := "Found " ++ toString fx.xmlErrors.length ++ " XML error(s)" }
  else
    { name := "XML Validation", status := ValidationStatus.passed
      message := "No XML errors found" }

/-- Model of `_validate_disk_space`: skipped when `shutil.disk_usage` raises;
`free / 2^30 < min_gb` compared exactly as `free < min_gb * 2^30`. -/
def validateDiskSpace (minDiskSpaceGb : Nat) (fx : ValidationEffects) :
    ValidationResult :=
  match fx.diskFreeBytes with
  | none =>
    { name := "Disk Space", status := ValidationStatus.skipped
      message := "Could not check disk space" }
  | some free =>
    if free < minDiskSpaceGb * (1024 ^ 3) then
      { name := "Disk Space", status := ValidationStatus.failed
        message := "Insufficient disk space" }
    else
      { name := "Disk Space", status := ValidationStatus.passed
        message := "Disk space sufficient" }

/-- Model of `_validate_database`: skipped when the import or probe raises,
failed exactly when the probe answers false. -/
def validateDatabase (fx : ValidationEffects) : ValidationResult :=
  match fx.dbProbe with
  | none =>
    { name := "Database Connection", status := ValidationStatus.skipped
      message := "Database check skipped" }
  | some true =>
    { name := "Database Connection", status := ValidationStatus.passed
      message := "Database connection successful" }
  | some false =>
    { name := "Database Connection", status := ValidationStatus.failed
      message := "Could not connect to database" }

/-- Model of `_run_tests`: skipped without a tests directory or on an unexpected
exception, failed on a nonzero exit code or timeout. -/
def runTests (fx : ValidationEffects) : ValidationResult :=
  match fx.tests with
  | TestsOutcome.noTestsDir =>
    { name := "Tests", status := ValidationStatus.skipped
      message := "No tests directory found" }
  | TestsOutcome.exitCode code =>
    if code = 0 then
      { name := "Tests", status := ValidationStatus.passed
        message := "All tests passed" }
    else
      { name := "Tests", status := ValidationStatus.failed
        message := "Tests failed" }
  | TestsOutcome.timedOut =>
    { name := "Tests", status := ValidationStatus.failed
      message := "Tests timed out" }
  | TestsOutcome.raised msg =>
    { name := "Tests", status := ValidationStatus.skipped
      message := "Tests skipped: " ++ msg }

/-- Model of `_validate_migrations`: always passed, informational only. -/
def validateMigrations (fx : ValidationEffects) : ValidationResult :=
  { name := "Migration Check", status := ValidationStatus.passed
    message := "Found " ++ toString fx.migrationFiles.length ++ " migration file(s)" }

/-- The branch/commit/author triple of `GitRepoInfo` as returned by
`git_manager.get_status`. -/
structure GitStatusInfo where
  branch : Option String
  commit : Option String
  author : Option String
  deriving DecidableEq, Repr

/-- Python `x or "unknown"` on an optional string: None and "" both fall
back. -/
def pyOrStr (v : Option String) (dflt : String) : String :=
  match v with
  | none => dflt
  | some s => if s = "" then dflt else s

/-- Model of `CICDPipeline.validate_deployment` (lines 89-158): resolve the commit
(GitError swallowed), run the six stages in order (tests and migrations
gated by the config flags), and set the overall status to failed exactly
when some stage failed. -/
def validateDeployment (cfg : PipelineConfig)
    (gitStatus : String → Option GitStatusInfo) (fx : ValidationEffects)
    (branch repo environment : String) : PipelineResult :=
  let commit :=
    match gitStatus repo with
    | some ri => pyOrStr ri.commit "unknown"
    | none => "unknown"
  let validations :=
    [pythonSyntaxStage fx, validateXml fx,
     validateDiskSpace cfg.minDiskSpaceGb fx, validateDatabase fx]
    ++ (if cfg.runTests then [runTests fx] else [])
    ++ (if cfg.checkMigrations then [validateMigrations fx] else [])
  let failed := validations.any (fun v => v.status == ValidationStatus.failed)
  { id := "validate-" ++ environment
    environment := environment
    branch := branch
    commit := commit
    status := if failed then ValidationStatus.failed else ValidationStatus.passed
    validations := validations
    deployment := none
    rollbackDeployment := none
    errorMessage := "" }

/-- The collaborators of `CICDPipeline.deploy`: the environment registry,
git status per repo (None models a raised GitError), one snapshot of the
validator effects, the environment's recorded last deployment
(`_get_last_deployment`), and the outcomes of
`env_manager.deploy(environment, branch, repo)` and of the repo-less
deploy call made by `_rollback`. -/
structure DeployWorld where
  envs : String → Option EnvConfig
  gitStatus : String → Option GitStatusInfo
  fx : ValidationEffects
  lastDeployment : String → Option DeploymentRecord
  envDeploy : String → String → String → Except String DeploymentRecord
  envDeployNoRepo : String → String → Except String DeploymentRecord

/-- Model of `CICDPipeline._rollback` (lines 503-516): nothing to do without a
previous deployment, otherwise redeploy its branch (no repo argument). -/
def pipelineRollbackStep (w : DeployWorld) (environment : String)
    (previous : Option DeploymentRecord) :
    Except String (Option DeploymentRecord) :=
  match previous with
  | none => Except.ok none
  | some prev => (w.envDeployNoRepo environment prev.branch).map some

/-- The except-handler of `CICDPipeline.deploy` (lines 236-252): mark the
result failed with the exception message, then attempt a rollback only
when rollback-on-failure is enabled AND `result.deployment` is set; a
rollback failure is only warned about, leaving the primary result. -/
def deployHandleFailure (w : DeployWorld) (cfg : PipelineConfig)
    (environment : String) (previous : Option DeploymentRecord)
    (r : PipelineResult) (msg : String) : PipelineResult :=
  let r := { r with status := ValidationStatus.failed, errorMessage := msg }
  if cfg.rollbackOnFailure && r.deployment.isSome then
    match pipelineRollbackStep w environment previous with
    | Except.ok rb => { r with rollbackDeployment := rb }
    | Except.error _ => r
  else r

/-- The deploy phase of `CICDPipeline.deploy` (lines 215-234): record the
previous deployment, call `env_manager.deploy` (the zero-downtime path
performs the identical call), and on success attach the deployment and
mark the result passed; an exception lands in the handler. The output
helpers (`info`/`success`) are assumed not to raise. -/
def deployPhase (w : DeployWorld) (cfg : PipelineConfig)
    (environment branch repoName : String) (r : PipelineResult) :
    PipelineResult :=
  let previous := w.lastDeployment environment
  match w.envDeploy environment branch repoName with
  | Except.ok dep =>
    { r with deployment := some dep, status := ValidationStatus.passed }
  | Except.error e => deployHandleFailure w cfg environment previous r e

/-- Model of `CICDPipeline.deploy` (lines 160-253): resolve the environment and
repo, fetch the commit, optionally validate (aborting before the deploy
phase on a validation failure), then run the deploy phase. Exceptions
raised before the deploy phase (missing environment, missing repo,
GitError) reach the same handler with `result.deployment` still unset. -/
def deploy (w : DeployWorld) (cfg : PipelineConfig)
    (branch environment : String) (repoArg : Option String)
    (skipValidation : Bool) : PipelineResult :=
  let r0 : PipelineResult :=
    { id := "deploy-" ++ environment, environment := environment,
      branch := branch, commit := "", status := ValidationStatus.running,
      validations := [], deployment := none, rollbackDeployment := none,
      errorMessage := "" }
  match w.envs environment with
  | none =>
    deployHandleFailure w cfg environment none r0
      ("Environment not found: " ++ environment)
  | some env =>
    match (match repoArg with
           | some s => if s = "" then none else some s
           | none => none) <|>
          (match env.gitRepo with
           | some s => if s = "" then none else some s
           | none => none) with
    | none => deployHandleFailure w cfg environment none r0 "No repository specified"
    | some repoName =>
      match w.gitStatus repoName with
      | none => deployHandleFailure w cfg environment none r0 "Git status failed"
      | some ri =>
        let r1 := { r0 with commit := pyOrStr ri.commit "unknown" }
        if skipValidation = false then
          let validation :=
            validateDeployment cfg w.gitStatus w.fx branch repoName environment
          if validation.status == ValidationStatus.failed then
            { r1 with status := ValidationStatus.failed
                      validations := validation.validations
                      errorMessage := "Pre-deployment validation failed" }
          else
            deployPhase w cfg environment branch repoName
              { r1 with validations := validation.validations }
        else
          deployPhase w cfg environment branch repoName r1

/-! ### C9: rollback selection -/

/-- The arguments of the `env_manager.deploy` call made by
`CICDPipeline.rollback`: environment, branch (the selected record's
branch — its commit is not passed) and repo
(`target.rollback_from or environment`). -/
structure RollbackDeployCall where
  environment : String
  branch : String
  repo : String
  deriving DecidableEq, Repr

/-- Model of `CICDPipeline.rollback` (lines 255-296) up to its final deploy call,
returned as that call's arguments: load the 20 most recent records, pick
the first record (newest first) whose id starts with a truthy
`target_id`, or — when the argument is falsy — the second-most-recent
record, falling back to the most recent when only one exists; then
redeploy the selected record's branch. -/
def pipelineRollback (stored : List DeploymentRecord) (environment : String)
    (targetId : Option String) : Except String RollbackDeployCall :=
  let history := getDeploymentHistory stored 20
  if history = [] then
    Except.error ("No deployment history found for " ++ environment)
  else
    let defaultTarget : Option DeploymentRecord :=
      if history.length > 1 then history[1]? else history[0]?
    let target : Option DeploymentRecord :=
      match targetId with
      | some tid =>
        if tid = "" then defaultTarget
        else history.find? (fun record => tid.toList.isPrefixOf record.id.toList)
      | none => defaultTarget
    match target with
    | none => Except.error "Deployment not found in history"
    | some t =>
      Except.ok { environment := environment, branch := t.branch,
                  repo := pyOrStr t.rollbackFrom environment }

/-- A previous deployment recorded for "staging". -/
def demoPreviousRecord : DeploymentRecord :=
  { id := "staging-1", environment := "staging", branch := "release-1",
    commit := "def456", author := "bob", timestamp := 50,
    status := "success", message := "", rollbackFrom := none }

/-- An older deployment recorded for "staging". -/
def demoOldRecord : DeploymentRecord :=
  { id := "staging-0", environment := "staging", branch := "release-0",
    commit := "000aaa", author := "carol", timestamp := 10,
    status := "success", message := "", rollbackFrom := none }

/-- C9 counterexample: with exactly one stored record and no target id,
rollback does not fail and does not pick a second-most-recent record (none
exists); it selects the most recent record itself — the one the claim
designates as current — and redeploys its branch. -/
theorem C9_counterexample :
    pipelineRollback [demoPreviousRecord] "staging" none =
      Except.ok { environment := "staging", branch := "release-1",
                  repo := "staging" } := by
  decide

/-- C9 (amended): rollback reads only the 20 most recent history records;
a given (truthy) target id selects the first record, newest first, whose
id it prefixes; an omitted target id selects the second-most-recent
record when at least two exist, and the most recent itself when the
history holds exactly one record; the selected record's branch name (not
its commit) is redeployed, with repo `rollback_from or environment`. -/
theorem C9_rollback :
    (∀ stored1 stored2 environment targetId,
      getDeploymentHistory stored1 20 = getDeploymentHistory stored2 20 →
      pipelineRollback stored1 environment targetId =
        pipelineRollback stored2 environment targetId) ∧
    (∀ stored environment tid t, tid ≠ "" →
      (getDeploymentHistory stored 20).find?
          (fun record => tid.toList.isPrefixOf record.id.toList) = some t →
      pipelineRollback stored environment (some tid) =
        Except.ok { environment := environment, branch := t.branch,
                    repo := pyOrStr t.rollbackFrom environment }) ∧
    (∀ stored environment t,
      (getDeploymentHistory stored 20)[1]? = some t →
      pipelineRollback stored environment none =
        Except.ok { environment := environment, branch := t.branch,
                    repo := pyOrStr t.rollbackFrom environment }) ∧
    (∀ stored environment t, getDeploymentHistory stored 20 = [t] →
      pipelineRollback stored environment none =
        Except.ok { environment := environment, branch := t.branch,
                    repo := pyOrStr t.rollbackFrom environment }) := by
  refine ⟨fun stored1 stored2 environment targetId h => ?_,
    fun stored environment tid t htid hfind => ?_,
    fun stored environment t h1 => ?_,
    fun stored environment t h1 => ?_⟩
  · simp only [pipelineRollback, h]
  · have hne : getDeploymentHistory stored 20 ≠ [] := by
      intro h0
      rw [h0] at hfind
      simp at hfind
    simp only [pipelineRollback]
    rw [if_neg hne]
    simp only [htid, if_false, hfind]
  · have hlen : 1 < (getDeploymentHistory stored 20).length := by
      rcases List.getElem?_eq_some.mp h1 with ⟨hlt, _⟩
      exact hlt
    have hne : getDeploymentHistory stored 20 ≠ [] := by
      intro h0
      rw [h0] at hlen
      simp at hlen
    simp only [pipelineRollback]
    rw [if_neg hne]
    simp only [gt_iff_lt, hlen, if_true, h1]
  · simp only [pipelineRollback, h1]
    simp

/-- Witness for C9: the three selection modes of `C9_rollback` applied
to a concrete two-record history. -/
theorem C9_rollback_witness :
    pipelineRollback [demoOldRecord, demoPreviousRecord] "staging" none =
      Except.ok { environment := "staging", branch := "release-0",
                  repo := "staging" } ∧
    pipelineRollback [demoOldRecord, demoPreviousRecord] "staging" (some "staging-1") =
      Except.ok { environment := "staging", branch := "release-1",
                  repo := "staging" } ∧
    pipelineRollback [demoOldRecord] "staging" none =
      Except.ok { environment := "staging", branch := "release-0",
                  repo := "staging" } :=
  ⟨C9_rollback.2.2.1 [demoOldRecord, demoPreviousRecord] "staging" demoOldRecord
      (by decide),
   C9_rollback.2.1 [demoOldRecord, demoPreviousRecord] "staging" "staging-1"
      demoPreviousRecord (by decide) (by decide),
   C9_rollback.2.2.2 [demoOldRecord] "staging" demoOldRecord (by decide)⟩

/-! ### C1 and C2: pipeline status and rollback-on-failure -/

/-- Validator effects under which every stage passes. -/
def cleanEffects : ValidationEffects :=
  { syntaxErrors := [], xmlParserAvailable := true, xmlErrors := [],
    diskFreeBytes := some (100 * 1024 ^ 3), dbProbe := some true,
    tests := TestsOutcome.exitCode 0, migrationFiles := [] }

/-- A deploy world where the staging environment exists with repo
"repo", git succeeds, validation would pass, a previous deployment is
recorded and the repo-less rollback deploy would succeed — but the
deploy call itself raises. -/
def demoDeployWorld : DeployWorld :=
  { envs := demoEnvs
    gitStatus := fun r =>
      if r = "repo" then
        some { branch := some "main", commit := some "abc123",
               author := some "alice" }
      else none
    fx := cleanEffects
    lastDeployment := fun environment =>
      if environment = "staging" then some demoPreviousRecord else none
    envDeploy := fun _ _ _ => Except.error "deploy exploded"
    envDeployNoRepo := fun environment branch =>
      Except.ok
        { demoDeployRecord with environment := environment, branch := branch } }

/-- The overall status rule shared by the validation result list: failed
exactly when some entry failed. -/
theorem status_failed_iff_any (L : List ValidationResult) :
    (if L.any (fun v => v.status == ValidationStatus.failed) then
        ValidationStatus.failed
      else ValidationStatus.passed) = ValidationStatus.failed ↔
      ∃ v ∈ L, v.status = ValidationStatus.failed := by
  cases hf : L.any (fun v => v.status == ValidationStatus.failed) with
  | true =>
    rw [if_pos rfl]
    constructor
    · intro _
      rcases List.any_eq_true.mp hf with ⟨v, hmem, hv⟩
      exact ⟨v, hmem, by simpa using hv⟩
    · intro _
      rfl
  | false =>
    rw [if_neg (by simp)]
    constructor
    · intro h
      exact absurd h (by decide)
    · rintro ⟨v, hmem, hv⟩
      have hc : L.any (fun v => v.status == ValidationStatus.failed) = true :=
        List.any_eq_true.mpr ⟨v, hmem, by simpa using hv⟩
      rw [hf] at hc
      cases hc

/-- Model of `validate_deployment` marks the result failed exactly when one of
its stages failed. -/
theorem validateDeployment_failed_iff (cfg : PipelineConfig)
    (gs : String → Option GitStatusInfo) (fx : ValidationEffects)
    (branch repo environment : String) :
    (validateDeployment cfg gs fx branch repo environment).status =
        ValidationStatus.failed ↔
      ∃ v ∈ (validateDeployment cfg gs fx branch repo environment).validations,
        v.status = ValidationStatus.failed := by
  simp only [validateDeployment]
  exact status_failed_iff_any _

theorem deployHandleFailure_status (w : DeployWorld) (cfg : PipelineConfig)
    (environment : String) (previous : Option DeploymentRecord)
    (r : PipelineResult) (msg : String) :
    (deployHandleFailure w cfg environment previous r msg).status =
      ValidationStatus.failed := by
  simp only [deployHandleFailure]
  split
  · split <;> rfl
  · rfl

theorem deployHandleFailure_validations (w : DeployWorld) (cfg : PipelineConfig)
    (environment : String) (previous : Option DeploymentRecord)
    (r : PipelineResult) (msg : String) :
    (deployHandleFailure w cfg environment previous r msg).validations =
      r.validations := by
  simp only [deployHandleFailure]
  split
  · split <;> rfl
  · rfl

theorem deployHandleFailure_rollbackDeployment (w : DeployWorld)
    (cfg : PipelineConfig) (environment : String)
    (previous : Option DeploymentRecord) (r : PipelineResult) (msg : String)
    (h : r.deployment = none) :
    (deployHandleFailure w cfg environment previous r msg).rollbackDeployment =
      r.rollbackDeployment := by
  simp only [deployHandleFailure, h]
  simp

theorem deployPhase_validations (w : DeployWorld) (cfg : PipelineConfig)
    (environment branch repoName : String) (r : PipelineResult) :
    (deployPhase w cfg environment branch repoName r).validations =
      r.validations := by
  simp only [deployPhase]
  split
  · rfl
  · exact deployHandleFailure_validations _ _ _ _ _ _

theorem deployPhase_rollbackDeployment (w : DeployWorld) (cfg : PipelineConfig)
    (environment branch repoName : String) (r : PipelineResult)
    (h : r.deployment = none) :
    (deployPhase w cfg environment branch repoName r).rollbackDeployment =
      r.rollbackDeployment := by
  simp only [deployPhase]
  split
  · rfl
  · exact deployHandleFailure_rollbackDeployment _ _ _ _ _ _ h

/-- Every `deploy` result either carries the failed status or carries no
failed validation entry. -/
theorem deploy_result_spec (w : DeployWorld) (cfg : PipelineConfig)
    (branch environment : String) (repoArg : Option String)
    (skipV : Bool) :
    (deploy w cfg branch environment repoArg skipV).status =
        ValidationStatus.failed ∨
      ∀ v ∈ (deploy w cfg branch environment repoArg skipV).validations,
        v.status ≠ ValidationStatus.failed := by
  simp only [deploy]
  split
  · exact Or.inl (deployHandleFailure_status _ _ _ _ _ _)
  · split
    · exact Or.inl (deployHandleFailure_status _ _ _ _ _ _)
    · split
      · exact Or.inl (deployHandleFailure_status _ _ _ _ _ _)
      · split
        · split
          next hval => exact Or.inl rfl
          next hval =>
            refine Or.inr (fun v hvmem hvfail => ?_)
            rw [deployPhase_validations] at hvmem
            simp only [] at hvmem
            have hfailed :
                (validateDeployment cfg w.gitStatus w.fx branch _ environment).status =
                  ValidationStatus.failed :=
              (validateDeployment_failed_iff _ _ _ _ _ _).mpr ⟨v, hvmem, hvfail⟩
            exact hval (by simp [hfailed])
        · refine Or.inr (fun v hvmem hvfail => ?_)
          rw [deployPhase_validations] at hvmem
          simp at hvmem

/-- The pipeline never reaches its rollback branch: the handler requires
`result.deployment` to be set, which happens only after a successful
deploy, so every result has no rollback deployment. -/
theorem deploy_rollbackDeployment_none (w : DeployWorld) (cfg : PipelineConfig)
    (branch environment : String) (repoArg : Option String) (skipV : Bool) :
    (deploy w cfg branch environment repoArg skipV).rollbackDeployment = none := by
  simp only [deploy]
  split
  · rw [deployHandleFailure_rollbackDeployment _ _ _ _ _ _ rfl]
  · split
    · rw [deployHandleFailure_rollbackDeployment _ _ _ _ _ _ rfl]
    · split
      · rw [deployHandleFailure_rollbackDeployment _ _ _ _ _ _ rfl]
      · split
        · split
          · rfl
          · rw [deployPhase_rollbackDeployment _ _ _ _ _ _ rfl]
        · rw [deployPhase_rollbackDeployment _ _ _ _ _ _ rfl]

/-- C1 counterexample: a deploy with validation skipped whose deploy
phase raises produces a failed result with an empty validation list, so
its status is failed while none of its ValidationResults is failed. -/
theorem C1_counterexample :
    (deploy demoDeployWorld defaultPipelineConfig "main" "staging" none true).status =
      ValidationStatus.failed ∧
    (deploy demoDeployWorld defaultPipelineConfig "main" "staging" none true).validations =
      [] := by
  refine ⟨by decide, by decide⟩

/-- C1 (amended): a PipelineResult of `validate_deployment` has status
failed exactly when at least one of its ValidationResults is failed; a
PipelineResult of `deploy` is failed whenever one of its
ValidationResults is failed, but it can also be failed with no failed
ValidationResult when the deploy phase itself raises. -/
theorem C1_pipeline_status :
    (∀ cfg gs fx branch repo environment,
      ((validateDeployment cfg gs fx branch repo environment).status =
          ValidationStatus.failed ↔
        ∃ v ∈ (validateDeployment cfg gs fx branch repo environment).validations,
          v.status = ValidationStatus.failed)) ∧
    (∀ w cfg branch environment repoArg skipV,
      (∃ v ∈ (deploy w cfg branch environment repoArg skipV).validations,
          v.status = ValidationStatus.failed) →
        (deploy w cfg branch environment repoArg skipV).status =
          ValidationStatus.failed) := by
  refine ⟨fun cfg gs fx branch repo environment =>
      validateDeployment_failed_iff cfg gs fx branch repo environment,
    fun w cfg branch environment repoArg skipV hv => ?_⟩
  rcases deploy_result_spec w cfg branch environment repoArg skipV with h | h
  · exact h
  · rcases hv with ⟨v, hvmem, hvfail⟩
    exact absurd hvfail (h v hvmem)

/-- Witness for C1: the deploy-side implication applied to a failing
validation run (the demo world's database probe answering false makes
the database stage fail and the deploy abort). -/
theorem C1_pipeline_status_witness :
    (deploy
      { demoDeployWorld with fx := { cleanEffects with dbProbe := some false } }
      defaultPipelineConfig "main" "staging" none false).status =
      ValidationStatus.failed :=
  C1_pipeline_status.2
    { demoDeployWorld with fx := { cleanEffects with dbProbe := some false } }
    defaultPipelineConfig "main" "staging" none false
    ⟨{ name := "Database Connection", status := ValidationStatus.failed,
       message := "Could not connect to database" }, by decide, by decide⟩

/-- C2: the rollback-on-failure path of `deploy` is unreachable. The
handler attempts a rollback only when `result.deployment` is set, but
that field is only assigned after `env_manager.deploy` succeeds, so an
exception during the deploy phase always leaves `rollback_deployment`
unset (first conjunct: every result of `deploy` has no rollback
deployment). Concretely: with rollback-on-failure enabled, a recorded
previous deployment, and a failing deploy call, the result is failed
with the error captured, yet no rollback was attempted even though the
rollback step itself would have succeeded. -/
theorem C2_rollback_dead_code :
    (∀ w cfg branch environment repoArg skipV,
      (deploy w cfg branch environment repoArg skipV).rollbackDeployment = none) ∧
    (deploy demoDeployWorld defaultPipelineConfig "main" "staging" none true).status =
      ValidationStatus.failed ∧
    (deploy demoDeployWorld defaultPipelineConfig "main" "staging" none true).errorMessage =
      "deploy exploded" ∧
    demoDeployWorld.lastDeployment "staging" = some demoPreviousRecord ∧
    defaultPipelineConfig.rollbackOnFailure = true ∧
    pipelineRollbackStep demoDeployWorld "staging" (some demoPreviousRecord) =
      Except.ok
        (some { demoDeployRecord with environment := "staging", branch := "release-1" }) :=
  ⟨deploy_rollbackDeployment_none, by decide, by decide, by decide, by decide,
   by decide⟩

end OdooManager
